import Mathlib

/-!
Shallow embedding of the IFC viewer's asset-loading engine, taken from
`src/frontend/src/components/Viewer3D.jsx` (component `IFCModel`), together
with the camera-framing and progress-reporting code of the sibling
iterations of the same component (`src/unnamed/part_001`,
`src/unnamed/part_002`).

The React effect of `IFCModel` is modelled as an explicit event-driven
state machine: the effect body (run on every change of the `url` prop),
the loader callbacks (success / progress / error, at each depth of the
wasm fallback cascade), the watchdog timer handler and the effect cleanup
are transitions on an explicit state `MState`.  JavaScript numbers are
modelled as rationals; the external `Math.tan` function and the constant
`Math.PI` are parameters of the machine (no claim about the machine
depends on their values).  The stand-alone camera-framing definitions used
for the numeric framing claims are stated over the reals with `Real.tan`,
idealising the floating-point evaluation.
-/

namespace Mcc

/-- A 3-component vector of rational coordinates, modelling a
`THREE.Vector3`. -/
structure Vec3 where
  x : ℚ
  y : ℚ
  z : ℚ
deriving DecidableEq, Repr

/-- An axis-aligned bounding box, modelling a `THREE.Box3` with its `min`
and `max` corner vectors. -/
structure Box3 where
  min : Vec3
  max : Vec3
deriving DecidableEq, Repr

/-- `THREE.Box3.getCenter`: the midpoint `(min + max) / 2`. -/
def Box3.center (b : Box3) : Vec3 :=
  ⟨(b.min.x + b.max.x) / 2, (b.min.y + b.max.y) / 2, (b.min.z + b.max.z) / 2⟩

/-- `THREE.Box3.getSize`: the extent `max - min` (the boxes framed by the
code are computed with `setFromObject` from attached geometry, so the
empty-box special case of THREE does not arise). -/
def Box3.size (b : Box3) : Vec3 :=
  ⟨b.max.x - b.min.x, b.max.y - b.min.y, b.max.z - b.min.z⟩

/-- A parsed scene-graph node.  `THREE.Object3D.traverse` enumerates the
node itself and all of its descendants; the geometry validator in the
source only consults the `isMesh` flag of each visited object, so a node
is modelled by the sequence of `isMesh` flags of the objects its traverse
visits, together with the bounding box that `Box3.setFromObject` computes
for it. -/
structure Obj where
  meshFlags : List Bool
  box : Box3
deriving DecidableEq, Repr

/-- The geometry validation of `Viewer3D.jsx`:
`model.traverse((child) => { if (child.isMesh) hasGeometry = true; })`. -/
def Obj.hasGeometry (o : Obj) : Bool := o.meshFlags.any id

/-- The externally owned camera: field of view in degrees, position, the
point most recently passed to `lookAt`, and a counter of
`updateProjectionMatrix` calls. -/
structure Camera where
  fov : ℚ
  position : Vec3
  target : Vec3
  projectionUpdates : ℕ
deriving DecidableEq, Repr

/-- The IEEE-754 double value of the JavaScript constant `Math.PI`,
as an exact rational (`0x400921FB54442D18`). -/
def jsPI : ℚ := 884279719003555 / 281474976710656

/-- JavaScript `Math.round` on a rational argument: floor of `x + 1/2`. -/
def jsRound (q : ℚ) : ℤ := ⌊q + 1 / 2⌋

/-- Does the first character list start with the second? -/
def charsStartWith : List Char → List Char → Bool
  | _, [] => true
  | [], _ :: _ => false
  | a :: as, b :: bs => a == b && charsStartWith as bs

/-- Does the needle occur as a contiguous run inside the haystack? -/
def charsContain (hay needle : List Char) : Bool :=
  match hay with
  | [] => needle.isEmpty
  | _ :: rest => charsStartWith hay needle || charsContain rest needle

/-- JavaScript `String.prototype.includes`, as used by
`String(error).includes(..)` in the error classification of the source. -/
def containsStr (s sub : String) : Bool := charsContain s.data sub.data

/-- JavaScript `m || "Unknown error"` on an error message string (the
empty string is falsy). -/
def orUnknown (m : String) : String := if m = "" then "Unknown error" else m

/-- The ordered wasm candidate registry of `Viewer3D.jsx`
(ref `fallbackList`). -/
def fallbackList : List String :=
  ["https://unpkg.com/web-ifc@0.0.47/",
   "https://unpkg.com/web-ifc@0.0.53/",
   "https://unpkg.com/web-ifc@0.0.36/"]

/-- One `ifcLoader.load` / `loadAsync` invocation: the url requested, the
wasm path the manager was configured with at the time of the call, the
identity (construction number) of the `IFCLoader` handle used, the
fallback depth of the callback chain the call belongs to (`0` initial,
`1` first retry, `2` retry chain), and whether it was issued by the
watchdog handler. -/
structure LoadReq where
  url : String
  wasm : String
  loaderGen : ℕ
  depth : ℕ
  viaWatchdog : Bool
deriving DecidableEq, Repr

/-- The viewer status driven by the `onLoadStart` / `onLoadComplete` /
`onError` callbacks (state `loadingStatus` plus `errorMessage` of the
enclosing `Viewer3D` component). -/
inductive Status where
  | idle
  | loading
  | success
  | error (msg : String)
deriving DecidableEq, Repr

/-- Events delivered by the JavaScript event loop to the effect:
a change of the `url` prop, resolution of a pending load (success with a
parsed node, or failure whose rendered error text is `emsg`), a byte
progress event for a pending load, and the watchdog timer firing.  The
error string is used both where the source writes `String(error)` (for
the `LinkError` classification) and where it writes `error.message`
(for message interpolation); no claim depends on the difference between
the two renderings of the same error object. -/
inductive Event where
  | setUrl (u : Option String)
  | resolveOk (id : ℕ) (node : Obj)
  | resolveErr (id : ℕ) (emsg : String)
  | progressEvt (id : ℕ) (loaded total : ℚ)
  | watchdogFire
deriving DecidableEq, Repr

/-- The machine state: the refs and React state of `IFCModel`
(`ifcLoader`, `currentWasm`, `fallbackIndex`, `didFallback`, `modelRef`,
`watchdog`), the externally owned scene and camera, the status of the
enclosing component, the set of pending (unresolved) load requests, and
observation logs of emitted errors, progress values, `onRetry` calls,
watchdog firings and issued loads. -/
structure MState where
  url : Option String
  loaderGen : ℕ
  currentWasm : String
  wasmPath : String
  fallbackIndex : ℕ
  didFallback : Bool
  modelRef : Option Obj
  scene : List Obj
  camera : Camera
  watchdogArmed : Bool
  status : Status
  errorLog : List String
  progressLog : List ℤ
  retries : ℕ
  watchdogFires : ℕ
  nextReq : ℕ
  pending : List (ℕ × LoadReq)
  loadLog : List LoadReq
deriving DecidableEq, Repr

/-- The initial camera of the `Canvas` element:
`camera={{ position: [10, 10, 10], fov: 50 }}`. -/
def initCamera : Camera :=
  { fov := 50, position := ⟨10, 10, 10⟩, target := ⟨0, 0, 0⟩, projectionUpdates := 0 }

/-- The state of a freshly mounted `IFCModel` with no url yet. -/
def init : MState :=
  { url := none
    loaderGen := 0
    currentWasm := "https://unpkg.com/web-ifc@0.0.47/"
    wasmPath := ""
    fallbackIndex := 0
    didFallback := false
    modelRef := none
    scene := []
    camera := initCamera
    watchdogArmed := false
    status := Status.idle
    errorLog := []
    progressLog := []
    retries := 0
    watchdogFires := 0
    nextReq := 0
    pending := []
    loadLog := [] }

/-- `onError(m)`: the parent sets `loadingStatus` to `error` and records
the message; the machine also appends `m` to the error log. -/
def emitError (m : String) (s : MState) : MState :=
  { s with status := Status.error m, errorLog := s.errorLog ++ [m] }

/-- Issue a loader call: register a pending request and record it in the
load log. -/
def issueLoad (req : LoadReq) (s : MState) : MState :=
  { s with pending := s.pending ++ [(s.nextReq, req)]
           nextReq := s.nextReq + 1
           loadLog := s.loadLog ++ [req] }

/-- Drop a resolved request from the pending set. -/
def removePending (id : ℕ) (s : MState) : MState :=
  { s with pending := s.pending.filter (fun p => p.1 ≠ id) }

/-- The effect cleanup of `IFCModel` (run when the url changes or the
component unmounts): remove the current model from the scene (the ref
itself is not nulled here) and clear the watchdog. -/
def runCleanup (s : MState) : MState :=
  let s1 :=
    match s.modelRef with
    | some n => { s with scene := s.scene.erase n }
    | none => s
  { s1 with watchdogArmed := false }

/-- The effect body of `IFCModel` for a non-null url `u`: construct the
loader on first use (with `setWasmPath(currentWasm)`), call
`onLoadStart`, detach and null any previous model, arm the watchdog and
issue the initial `ifcLoader.load(url, ...)` call. -/
def runEffect (u : String) (s : MState) : MState :=
  let s1 :=
    if s.loaderGen = 0 then
      { s with loaderGen := s.loaderGen + 1, wasmPath := s.currentWasm }
    else s
  let s2 := { s1 with status := Status.loading }
  let s3 :=
    match s2.modelRef with
    | some n => { s2 with scene := s2.scene.erase n, modelRef := none }
    | none => s2
  let s4 := { s3 with watchdogArmed := true }
  issueLoad
    { url := u, wasm := s4.wasmPath, loaderGen := s4.loaderGen
      depth := 0, viaWatchdog := false } s4

/-- The camera auto-focus of the success handlers of `Viewer3D.jsx`:
`fov = camera.fov * (Math.PI / 180)`,
`cameraZ = Math.abs(maxDim / 4 * Math.tan(fov * 2)); cameraZ *= 3`,
then `position.set(center + cameraZ)`, `lookAt(center)`,
`updateProjectionMatrix()`.  `mathPI` and `mathTan` are the external
`Math.PI` and `Math.tan`. -/
def frameCamera (mathPI : ℚ) (mathTan : ℚ → ℚ) (cam : Camera) (box : Box3) : Camera :=
  let center := box.center
  let size := box.size
  let maxDim := max size.x (max size.y size.z)
  let fov := cam.fov * (mathPI / 180)
  let cameraZ := |maxDim / 4 * mathTan (fov * 2)| * 3
  { cam with
    position := ⟨center.x + cameraZ, center.y + cameraZ, center.z + cameraZ⟩
    target := center
    projectionUpdates := cam.projectionUpdates + 1 }

/-- The empty-geometry failure message of the success handler at each
callback depth of `Viewer3D.jsx`. -/
def emptyMsg (req : LoadReq) : String :=
  if req.viaWatchdog then "Timeout fallback: no geometry"
  else if req.depth = 0 then "Model loaded but contains no geometry."
  else if req.depth = 1 then "Model loaded but contains no geometry (retry)."
  else "Model loaded but contains no geometry (retry chain)."

/-- The success handler of a load call (identical at every cascade depth
and in the watchdog handler, up to the empty-geometry message and up to
the watchdog handler not clearing the already-fired timer): validate that
the node has at least one mesh, otherwise report the empty-model error;
on success store the node in `modelRef`, add it to the scene, auto-focus
the camera, call `onLoadComplete` and clear the watchdog. -/
def onLoadSuccess (mathPI : ℚ) (mathTan : ℚ → ℚ) (req : LoadReq) (node : Obj)
    (s : MState) : MState :=
  if node.hasGeometry = false then
    emitError (emptyMsg req) s
  else
    let s1 := { s with modelRef := some node, scene := s.scene ++ [node] }
    let s2 := { s1 with camera := frameCamera mathPI mathTan s1.camera node.box }
    let s3 := { s2 with status := Status.success }
    if req.viaWatchdog then s3 else { s3 with watchdogArmed := false }

/-- The error handler of a load call, at each cascade depth, and the
catch branch of the watchdog handler.  At depth 0 a `LinkError` failure
advances `fallbackIndex`, re-points the same loader at the next wasm
candidate (`setWasmPath`), calls `onRetry` and re-issues the load; at
depth 1 a further `LinkError` advances once more and issues the retry
chain load; all remaining branches call `onError` with the corresponding
message. -/
def onLoadError (req : LoadReq) (emsg : String) (s : MState) : MState :=
  if req.viaWatchdog then
    emitError ("Timeout fallback failed: " ++ orUnknown emsg) s
  else if req.depth = 0 then
    let msg := "Failed to fetch or parse IFC file: " ++ orUnknown emsg
    if containsStr emsg "LinkError" then
      match fallbackList.get? (s.fallbackIndex + 1) with
      | none => emitError msg s
      | some alt =>
        let s1 := { s with didFallback := true
                           fallbackIndex := s.fallbackIndex + 1
                           currentWasm := alt
                           wasmPath := alt
                           retries := s.retries + 1 }
        issueLoad
          { url := req.url, wasm := alt, loaderGen := s1.loaderGen
            depth := 1, viaWatchdog := false } s1
    else emitError msg s
  else if req.depth = 1 then
    if containsStr emsg "LinkError" then
      match fallbackList.get? (s.fallbackIndex + 1) with
      | some nextWasm =>
        let s1 := { s with fallbackIndex := s.fallbackIndex + 1
                           currentWasm := nextWasm
                           wasmPath := nextWasm }
        issueLoad
          { url := req.url, wasm := nextWasm, loaderGen := s1.loaderGen
            depth := 2, viaWatchdog := false } s1
      | none => emitError ("Retry failed: " ++ orUnknown emsg) s
    else emitError ("Retry failed: " ++ orUnknown emsg) s
  else
    emitError ("Retry chain failed: " ++ orUnknown emsg) s

/-- The progress callback.  Only the initial (depth 0, non-watchdog) load
of `Viewer3D.jsx` installs one; the retry and chain loads pass
`undefined` and `loadAsync` in the watchdog handler installs none.  The
installed callback is
`Math.round((progress.loaded / progress.total) * 100)` passed to
`onProgress`, with no guard on the total. -/
def onProgressEvt (req : LoadReq) (loaded total : ℚ) (s : MState) : MState :=
  if req.viaWatchdog = false ∧ req.depth = 0 then
    { s with progressLog := s.progressLog ++ [jsRound (loaded / total * 100)] }
  else s

/-- One transition of the machine.  `setUrl` models React re-rendering
with a changed `url` prop: the previous effect's cleanup runs (when the
previous url was non-null, since the effect body returns before
registering a cleanup when `url` is null), then the effect body runs for
the new url.  Load resolutions look the pending request up by id; a
resolution for an unknown id is a no-op.  The watchdog handler re-loads
the current url in full when the timer fires while still armed. -/
def step (mathPI : ℚ) (mathTan : ℚ → ℚ) (s : MState) (e : Event) : MState :=
  match e with
  | Event.setUrl u =>
      if u = s.url then s
      else
        let s1 := if s.url.isSome then runCleanup s else s
        let s2 := { s1 with url := u }
        match u with
        | some v => runEffect v s2
        | none => s2
  | Event.resolveOk id node =>
      match s.pending.lookup id with
      | some req => onLoadSuccess mathPI mathTan req node (removePending id s)
      | none => s
  | Event.resolveErr id emsg =>
      match s.pending.lookup id with
      | some req => onLoadError req emsg (removePending id s)
      | none => s
  | Event.progressEvt id loaded total =>
      match s.pending.lookup id with
      | some req => onProgressEvt req loaded total s
      | none => s
  | Event.watchdogFire =>
      if s.watchdogArmed then
        let s1 := { s with watchdogArmed := false, watchdogFires := s.watchdogFires + 1 }
        match s1.url with
        | some u =>
            if s1.loaderGen ≠ 0 then
              issueLoad
                { url := u, wasm := s1.wasmPath, loaderGen := s1.loaderGen
                  depth := 0, viaWatchdog := true } s1
            else s1
        | none => s1
      else s

/-- Run the machine over a list of events. -/
def run (mathPI : ℚ) (mathTan : ℚ → ℚ) (s : MState) (es : List Event) : MState :=
  es.foldl (step mathPI mathTan) s

/-- The progress callback installed by the main load of `Viewer3D.jsx`:
`Math.round((progress.loaded / progress.total) * 100)` is passed to
`onProgress` on every progress event; the callback never reads
`lengthComputable` and has no guard on the total.  When `total = 0` the
JavaScript value is non-finite while this rational model yields
`jsRound 0`; the theorems below use only the fact that a value is
emitted at `total = 0`, never the value itself. -/
def progressViewer3D (_lengthComputable : Bool) (loaded total : ℚ) : Option ℤ :=
  some (jsRound (loaded / total * 100))

/-- The progress callback of `src/unnamed/part_001`:
`if (xhr.lengthComputable) { onProgress(Math.floor((xhr.loaded / xhr.total) * 100)); }`;
nothing is emitted when the length is not computable. -/
def progressPart001 (lengthComputable : Bool) (loaded total : ℚ) : Option ℤ :=
  if lengthComputable then some ⌊loaded / total * 100⌋ else none

/-- Result of a camera-framing computation: the stand-off distance, the
camera position and the `lookAt` target. -/
structure Framed where
  distance : ℚ
  position : Vec3
  target : Vec3
deriving DecidableEq, Repr

/-- The camera framing of `src/unnamed/part_001`:
`distance = maxDim * 3 || 60` (the JavaScript `||` falls back to `60`
when the product is falsy, i.e. zero), camera at
`center + (distance, distance, distance)`, looking at `center`. -/
def framePart001 (bmin bmax : Vec3) : Framed :=
  let center : Vec3 := ⟨(bmin.x + bmax.x) / 2, (bmin.y + bmax.y) / 2, (bmin.z + bmax.z) / 2⟩
  let size : Vec3 := ⟨bmax.x - bmin.x, bmax.y - bmin.y, bmax.z - bmin.z⟩
  let maxDim := max size.x (max size.y size.z)
  let distance := if maxDim * 3 = 0 then 60 else maxDim * 3
  ⟨distance, ⟨center.x + distance, center.y + distance, center.z + distance⟩, center⟩

/-- The camera framing of `src/unnamed/part_002`:
`maxDim = Math.max(size.x, size.y, size.z) || 10` (default extent `10`
for a degenerate volume), `dist = maxDim * 3`, camera at
`center + (dist, dist, dist)`, looking at `center`. -/
def framePart002 (bmin bmax : Vec3) : Framed :=
  let center : Vec3 := ⟨(bmin.x + bmax.x) / 2, (bmin.y + bmax.y) / 2, (bmin.z + bmax.z) / 2⟩
  let size : Vec3 := ⟨bmax.x - bmin.x, bmax.y - bmin.y, bmax.z - bmin.z⟩
  let maxDim0 := max size.x (max size.y size.z)
  let maxDim := if maxDim0 = 0 then 10 else maxDim0
  let dist := maxDim * 3
  ⟨dist, ⟨center.x + dist, center.y + dist, center.z + dist⟩, center⟩

/-- A 3-component vector over the reals, for the idealised (exact
real-arithmetic) reading of the framing code of `Viewer3D.jsx`, whose
distance formula applies `Math.tan`. -/
structure Vec3R where
  x : ℝ
  y : ℝ
  z : ℝ

/-- Real-valued framing result. -/
structure FramedR where
  distance : ℝ
  position : Vec3R
  target : Vec3R

/-- The stand-off distance of the success handlers of `Viewer3D.jsx`:
`fov = camera.fov * (Math.PI / 180)`,
`cameraZ = Math.abs(maxDim / 4 * Math.tan(fov * 2)); cameraZ *= 3`,
read over the reals. -/
noncomputable def cameraZViewer3D (fovDeg maxDim : ℝ) : ℝ :=
  |maxDim / 4 * Real.tan (fovDeg * (Real.pi / 180) * 2)| * 3

/-- The camera framing of `Viewer3D.jsx` over the reals: position at
`center + (cameraZ, cameraZ, cameraZ)`, looking at `center`.  The
stand-off depends on the camera field of view through `Math.tan`. -/
noncomputable def frameViewer3D (fovDeg : ℝ) (bmin bmax : Vec3R) : FramedR :=
  let center : Vec3R := ⟨(bmin.x + bmax.x) / 2, (bmin.y + bmax.y) / 2, (bmin.z + bmax.z) / 2⟩
  let size : Vec3R := ⟨bmax.x - bmin.x, bmax.y - bmin.y, bmax.z - bmin.z⟩
  let maxDim := max size.x (max size.y size.z)
  let cameraZ := cameraZViewer3D fovDeg maxDim
  ⟨cameraZ, ⟨center.x + cameraZ, center.y + cameraZ, center.z + cameraZ⟩, center⟩

/-- Is an event a change of the url prop?  Used to delimit traces that
stay within a single load session. -/
def Event.isSetUrl : Event → Bool
  | Event.setUrl _ => true
  | _ => false

/-- A concrete stand-in for the external `Math.tan` used when theorems
(which hold for every model of `Math.tan`) are instantiated at concrete
inputs. -/
def mtan0 : ℚ → ℚ := fun _ => 0

/-- The state of a fresh viewer right after its first url is supplied. -/
def sess (u : String) : MState := step jsPI mtan0 init (Event.setUrl (some u))

theorem mem_of_lookup {l : List (ℕ × LoadReq)} {id : ℕ} {req : LoadReq}
    (h : l.lookup id = some req) : (id, req) ∈ l := by
  induction l with
  | nil => simp [List.lookup] at h
  | cons a as ih =>
      obtain ⟨k, v⟩ := a
      rw [List.lookup] at h
      by_cases hk : id = k
      · subst hk
        simp at h
        subst h
        exact List.mem_cons_self _ _
      · have hbeq : (id == k) = false := beq_false_of_ne hk
        rw [hbeq] at h
        exact List.mem_cons_of_mem _ (ih h)

/-- The event trace of a session on a fresh viewer in which the parse
fails with a `LinkError`-class failure under every wasm candidate of the
registry: the initial load (request 0), the first fallback retry
(request 1) and the retry-chain load (request 2) each fail with a
`LinkError`. -/
def c1trace : List Event :=
  [Event.setUrl (some "model.ifc"),
   Event.resolveErr 0 "LinkError: import object field mismatch",
   Event.resolveErr 1 "LinkError: import object field mismatch",
   Event.resolveErr 2 "LinkError: import object field mismatch"]

/-- C1, counterexample.  When every registry candidate fails with a
version-mismatch (`LinkError`) failure, the session does reach the error
terminal only after all three candidates were attempted (the load log
shows all three wasm paths), but the final failure reason is
`Retry chain failed: <last error>`: it names none of the attempted
candidates, contradicting the claim that the failure reason names all of
them. -/
theorem C1_counterexample :
    (run jsPI mtan0 init c1trace).status
      = Status.error "Retry chain failed: LinkError: import object field mismatch" ∧
    ((run jsPI mtan0 init c1trace).loadLog.map LoadReq.wasm)
      = ["https://unpkg.com/web-ifc@0.0.47/",
         "https://unpkg.com/web-ifc@0.0.53/",
         "https://unpkg.com/web-ifc@0.0.36/"] ∧
    containsStr "Retry chain failed: LinkError: import object field mismatch" "0.0.47" = false ∧
    containsStr "Retry chain failed: LinkError: import object field mismatch" "0.0.53" = false ∧
    containsStr "Retry chain failed: LinkError: import object field mismatch" "0.0.36" = false := by
  exact ⟨by rfl, by rfl, by decide, by decide, by decide⟩

/-- C1, amended.  On a fresh viewer, when the parse fails with a
`LinkError`-class failure under every candidate, the controller retries
with each next candidate instead of failing immediately (the status is
still `loading` after the first and second failures), reaches the error
terminal only after the whole registry has been attempted in order, and
the final failure reason is derived from the last error alone
(`Retry chain failed: <last error message>`), without naming the
attempted candidates. -/
theorem C1_cascade_exhaustion (p : ℚ) (t : ℚ → ℚ) (u e0 e1 e2 : String)
    (h0 : containsStr e0 "LinkError" = true)
    (h1 : containsStr e1 "LinkError" = true)
    (_h2 : containsStr e2 "LinkError" = true) :
    (run p t init [Event.setUrl (some u), Event.resolveErr 0 e0]).status
      = Status.loading ∧
    (run p t init [Event.setUrl (some u), Event.resolveErr 0 e0,
        Event.resolveErr 1 e1]).status = Status.loading ∧
    (run p t init [Event.setUrl (some u), Event.resolveErr 0 e0,
        Event.resolveErr 1 e1, Event.resolveErr 2 e2]).status
      = Status.error ("Retry chain failed: " ++ orUnknown e2) ∧
    ((run p t init [Event.setUrl (some u), Event.resolveErr 0 e0,
        Event.resolveErr 1 e1, Event.resolveErr 2 e2]).loadLog.map LoadReq.wasm)
      = fallbackList ∧
    (run p t init [Event.setUrl (some u), Event.resolveErr 0 e0,
        Event.resolveErr 1 e1, Event.resolveErr 2 e2]).errorLog
      = ["Retry chain failed: " ++ orUnknown e2] := by
  refine ⟨?_, ?_, ?_, ?_, ?_⟩ <;>
    simp [run, step, init, runEffect, runCleanup, issueLoad, removePending,
      onLoadError, onLoadSuccess, emitError, onProgressEvt, List.lookup,
      h0, h1, fallbackList]

/-- C1, witness for the amended theorem at a concrete session. -/
theorem C1_cascade_exhaustion_witness :
    containsStr "LinkError: bad import" "LinkError" = true ∧
    ((run jsPI mtan0 init [Event.setUrl (some "a.ifc"),
        Event.resolveErr 0 "LinkError: bad import",
        Event.resolveErr 1 "LinkError: bad import",
        Event.resolveErr 2 "LinkError: bad import"]).status
      = Status.error ("Retry chain failed: " ++ orUnknown "LinkError: bad import") ∧
     ((run jsPI mtan0 init [Event.setUrl (some "a.ifc"),
        Event.resolveErr 0 "LinkError: bad import",
        Event.resolveErr 1 "LinkError: bad import",
        Event.resolveErr 2 "LinkError: bad import"]).loadLog.map LoadReq.wasm)
      = fallbackList) :=
  ⟨by decide,
   (C1_cascade_exhaustion jsPI mtan0 "a.ifc" "LinkError: bad import"
      "LinkError: bad import" "LinkError: bad import"
      (by decide) (by decide) (by decide)).2.2.1,
   (C1_cascade_exhaustion jsPI mtan0 "a.ifc" "LinkError: bad import"
      "LinkError: bad import" "LinkError: bad import"
      (by decide) (by decide) (by decide)).2.2.2.1⟩

/-- A session whose initial load fails with an ordinary (non-LinkError)
parse failure, followed by the watchdog timer firing. -/
def c2trace : List Event :=
  [Event.setUrl (some "model.ifc"), Event.resolveErr 0 "network down"]

/-- C2, counterexample.  A session that reaches the `Failed` terminal
through the normal path (an ordinary parse failure) leaves the watchdog
armed: the success handlers are the only places that clear the timer.
The still-armed watchdog then fires and issues a second, spontaneous
load (the load log grows to two entries) after the session has already
failed — contradicting the claim that the watchdog is disarmed as soon
as any terminal phase is reached and that no spontaneous load happens
after termination. -/
theorem C2_counterexample :
    (run jsPI mtan0 init c2trace).status
      = Status.error "Failed to fetch or parse IFC file: network down" ∧
    (run jsPI mtan0 init c2trace).watchdogArmed = true ∧
    (run jsPI mtan0 init (c2trace ++ [Event.watchdogFire])).watchdogFires = 1 ∧
    (run jsPI mtan0 init (c2trace ++ [Event.watchdogFire])).loadLog.length = 2 ∧
    ((run jsPI mtan0 init (c2trace ++ [Event.watchdogFire])).loadLog.map
        LoadReq.viaWatchdog) = [false, true] := by
  exact ⟨by rfl, by rfl, by rfl, by rfl, by rfl⟩

/-- Invariant of a single load session (no url change): pending
watchdog-issued loads exist only once the timer has fired and been
disarmed, the timer fires at most once, and a session that reached
`Success` has its watchdog cleared. -/
def InvWatchdog (s : MState) : Prop :=
  (s.watchdogArmed = true →
    (∀ pr ∈ s.pending, pr.2.viaWatchdog = false) ∧ s.watchdogFires = 0) ∧
  s.watchdogFires ≤ 1 ∧
  (s.status = Status.success → s.watchdogArmed = false)

theorem invWatchdog_of_fields (s t : MState)
    (ha : t.watchdogArmed = s.watchdogArmed) (hp : t.pending = s.pending)
    (hf : t.watchdogFires = s.watchdogFires) (hst : t.status = s.status)
    (h : InvWatchdog s) : InvWatchdog t := by
  rw [InvWatchdog, ha, hp, hf, hst]
  exact h

theorem invWatchdog_emitError (m : String) (s : MState) (h : InvWatchdog s) :
    InvWatchdog (emitError m s) := by
  obtain ⟨h1, h2, _⟩ := h
  refine ⟨h1, h2, ?_⟩
  intro hsucc
  simp [emitError] at hsucc

theorem invWatchdog_removePending (id : ℕ) (s : MState) (h : InvWatchdog s) :
    InvWatchdog (removePending id s) := by
  obtain ⟨h1, h2, h3⟩ := h
  refine ⟨?_, h2, h3⟩
  intro hw
  exact ⟨fun pr hpr => (h1 hw).1 pr (List.mem_of_mem_filter hpr), (h1 hw).2⟩

theorem invWatchdog_issueLoad (req : LoadReq) (s : MState)
    (hv : req.viaWatchdog = false) (h : InvWatchdog s) :
    InvWatchdog (issueLoad req s) := by
  obtain ⟨h1, h2, h3⟩ := h
  refine ⟨?_, h2, h3⟩
  intro hw
  refine ⟨?_, (h1 hw).2⟩
  intro pr hpr
  rcases List.mem_append.1 hpr with hpr | hpr
  · exact (h1 hw).1 pr hpr
  · simp only [List.mem_singleton] at hpr
    subst hpr
    exact hv

theorem invWatchdog_step (p : ℚ) (t : ℚ → ℚ) (s : MState) (e : Event)
    (h : InvWatchdog s) (he : e.isSetUrl = false) :
    InvWatchdog (step p t s e) := by
  cases e with
  | setUrl u => simp [Event.isSetUrl] at he
  | resolveOk id node =>
      simp only [step]
      cases hlk : s.pending.lookup id with
      | none => exact h
      | some req =>
          simp only [onLoadSuccess]
          by_cases hg : node.hasGeometry = false
          · simp only [hg, if_true]
            exact invWatchdog_emitError _ _ (invWatchdog_removePending id s h)
          · simp only [hg, if_false]
            by_cases hv : req.viaWatchdog
            · have harm : s.watchdogArmed = false := by
                by_contra harm
                have hmm := (h.1 (by simpa using harm)).1 (id, req) (mem_of_lookup hlk)
                simp [hv] at hmm
              simp only [hv, if_true]
              exact ⟨fun hw => by simp [removePending, harm] at hw,
                h.2.1, fun _ => by simp [removePending, harm]⟩
            · simp only [hv, if_false]
              exact ⟨fun hw => by simp at hw, h.2.1, fun _ => rfl⟩
  | resolveErr id emsg =>
      simp only [step]
      cases hlk : s.pending.lookup id with
      | none => exact h
      | some req =>
          have hrp := invWatchdog_removePending id s h
          simp only [onLoadError]
          by_cases hv : req.viaWatchdog = true
          · rw [if_pos hv]
            exact invWatchdog_emitError _ _ hrp
          · rw [if_neg hv]
            by_cases hd0 : req.depth = 0
            · rw [if_pos hd0]
              by_cases hle : containsStr emsg "LinkError" = true
              · rw [if_pos hle]
                cases halt : fallbackList.get? ((removePending id s).fallbackIndex + 1) with
                | none => exact invWatchdog_emitError _ _ hrp
                | some alt =>
                    exact invWatchdog_issueLoad _ _ rfl
                      (invWatchdog_of_fields _ _ rfl rfl rfl rfl hrp)
              · rw [if_neg hle]
                exact invWatchdog_emitError _ _ hrp
            · rw [if_neg hd0]
              by_cases hd1 : req.depth = 1
              · rw [if_pos hd1]
                by_cases hle : containsStr emsg "LinkError" = true
                · rw [if_pos hle]
                  cases halt : fallbackList.get? ((removePending id s).fallbackIndex + 1) with
                  | none => exact invWatchdog_emitError _ _ hrp
                  | some alt =>
                      exact invWatchdog_issueLoad _ _ rfl
                        (invWatchdog_of_fields _ _ rfl rfl rfl rfl hrp)
                · rw [if_neg hle]
                  exact invWatchdog_emitError _ _ hrp
              · rw [if_neg hd1]
                exact invWatchdog_emitError _ _ hrp
  | progressEvt id loaded total =>
      simp only [step]
      cases hlk : s.pending.lookup id with
      | none => exact h
      | some req =>
          simp only [onProgressEvt]
          split
          · exact invWatchdog_of_fields _ _ rfl rfl rfl rfl h
          · exact h
  | watchdogFire =>
      simp only [step]
      by_cases harm : s.watchdogArmed = true
      · have hf0 := (h.1 harm).2
        rw [if_pos harm]
        cases hu : s.url with
        | none =>
            simp only [hu]
            exact ⟨by simp, by dsimp only; omega, fun _ => rfl⟩
        | some u =>
            simp only [hu]
            by_cases hg : s.loaderGen ≠ 0
            · rw [if_pos hg]
              refine ⟨?_, ?_, fun _ => rfl⟩
              · intro hw
                simp [issueLoad] at hw
              · show s.watchdogFires + 1 ≤ 1
                omega
            · rw [if_neg hg]
              exact ⟨by simp, by dsimp only; omega, fun _ => rfl⟩
      · rw [if_neg harm]
        exact h

theorem invWatchdog_run (p : ℚ) (t : ℚ → ℚ) (s : MState) (es : List Event)
    (h : InvWatchdog s) (he : ∀ e ∈ es, e.isSetUrl = false) :
    InvWatchdog (run p t s es) := by
  induction es generalizing s with
  | nil => exact h
  | cons e es ih =>
      exact ih (step p t s e)
        (invWatchdog_step p t s e h (he e (List.mem_cons_self _ _)))
        (fun x hx => he x (List.mem_cons_of_mem _ hx))

/-- C2, amended.  Within a single session (no url change after the
session starts), the watchdog is disarmed whenever `Success` is reached,
and the watchdog fires at most once; but — per the counterexample — it
is not disarmed when the session reaches `Failed`, so a spontaneous
timeout load can still occur after a normal failure. -/
theorem C2_watchdog_single_session (p : ℚ) (t : ℚ → ℚ) (u : String)
    (es : List Event) (he : ∀ e ∈ es, e.isSetUrl = false) :
    ((run p t (step p t init (Event.setUrl (some u))) es).status = Status.success →
      (run p t (step p t init (Event.setUrl (some u))) es).watchdogArmed = false) ∧
    (run p t (step p t init (Event.setUrl (some u))) es).watchdogFires ≤ 1 := by
  have hbase : InvWatchdog (step p t init (Event.setUrl (some u))) := by
    refine ⟨?_, ?_, ?_⟩ <;>
      simp [step, init, runEffect, runCleanup, issueLoad, InvWatchdog]
  have hr := invWatchdog_run p t _ es hbase he
  exact ⟨hr.2.2, hr.2.1⟩

/-- C2, witness for the amended theorem: a concrete session whose load
succeeds, after which the watchdog is disarmed and has never fired. -/
theorem C2_watchdog_witness :
    (∀ e ∈ [Event.resolveOk 0 (Obj.mk [true] ⟨⟨0, 0, 0⟩, ⟨4, 4, 4⟩⟩)],
      e.isSetUrl = false) ∧
    ((run jsPI mtan0 (step jsPI mtan0 init (Event.setUrl (some "b.ifc")))
        [Event.resolveOk 0 (Obj.mk [true] ⟨⟨0, 0, 0⟩, ⟨4, 4, 4⟩⟩)]).status
          = Status.success →
      (run jsPI mtan0 (step jsPI mtan0 init (Event.setUrl (some "b.ifc")))
        [Event.resolveOk 0 (Obj.mk [true] ⟨⟨0, 0, 0⟩, ⟨4, 4, 4⟩⟩)]).watchdogArmed
          = false) ∧
    (run jsPI mtan0 (step jsPI mtan0 init (Event.setUrl (some "b.ifc")))
        [Event.resolveOk 0 (Obj.mk [true] ⟨⟨0, 0, 0⟩, ⟨4, 4, 4⟩⟩)]).watchdogFires ≤ 1 :=
  ⟨by decide,
   (C2_watchdog_single_session jsPI mtan0 "b.ifc" _ (by decide)).1,
   (C2_watchdog_single_session jsPI mtan0 "b.ifc" _ (by decide)).2⟩

/-- The node delivered (late) by urlA's load request. -/
def c3nodeA : Obj := ⟨[true], ⟨⟨0, 0, 0⟩, ⟨1, 1, 1⟩⟩⟩

/-- The node delivered by urlB's load request. -/
def c3nodeB : Obj := ⟨[true], ⟨⟨0, 0, 0⟩, ⟨2, 2, 2⟩⟩⟩

/-- urlA is loaded, then urlB supersedes it while A's load (request 0)
is still in flight; A's request then resolves late, and finally B's
(request 1) resolves. -/
def c3trace : List Event :=
  [Event.setUrl (some "urlA"), Event.setUrl (some "urlB"),
   Event.resolveOk 0 c3nodeA, Event.resolveOk 1 c3nodeB]

/-- C3, counterexample.  Supplying urlB while urlA's session is still
fetching does not cancel A's in-flight load: when A's request (request 0,
issued for urlA as the load log shows) resolves late, its success
callback attaches A's node to the scene during B's session.  After B's
own load also succeeds, the scene holds both A's node and B's node —
contradicting both the claim that zero nodes of A remain once B's
session progresses past `Fetching` and the claim that the scene holds at
most one attached node per viewer. -/
theorem C3_counterexample :
    (run jsPI mtan0 init c3trace).scene = [c3nodeA, c3nodeB] ∧
    c3nodeA ≠ c3nodeB ∧
    ((run jsPI mtan0 init c3trace).loadLog.map LoadReq.url) = ["urlA", "urlB"] ∧
    (run jsPI mtan0 init c3trace).status = Status.success ∧
    1 < (run jsPI mtan0 init c3trace).scene.length := by
  exact ⟨by rfl, by decide, by rfl, by rfl, by decide⟩

/-- C3, amended.  Supplying a new url while a session is active runs the
previous effect's cleanup followed by the new effect body: the
previously attached node is removed from the scene (and the model ref is
nulled), and the old watchdog timer is cleared before the new session
arms its own; but the superseded session's in-flight load requests are
not cancelled — every previously pending request is still pending — so a
late success of the old session can still attach its node afterwards
(the counterexample). -/
theorem runEffect_core (u : String) (s : MState) (n : Obj)
    (hm : s.modelRef = some n) :
    (runEffect u s).modelRef = none ∧
    (runEffect u s).scene = s.scene.erase n ∧
    ∃ q, (runEffect u s).pending = s.pending ++ [q] := by
  unfold runEffect issueLoad
  by_cases hlg : s.loaderGen = 0 <;> simp [hlg, hm]

theorem C3_supersession_cleanup (p : ℚ) (t : ℚ → ℚ) (s : MState)
    (a u : String) (n : Obj)
    (hu : s.url = some a) (hne : u ≠ a) (hm : s.modelRef = some n)
    (hcnt : s.scene.count n ≤ 2) :
    (step p t s (Event.setUrl (some u))).modelRef = none ∧
    n ∉ (step p t s (Event.setUrl (some u))).scene ∧
    ∀ pr ∈ s.pending, pr ∈ (step p t s (Event.setUrl (some u))).pending := by
  have hcond : (some u : Option String) ≠ s.url := by
    rw [hu]
    simp [hne]
  have hsome : s.url.isSome = true := by rw [hu]; rfl
  have hstep : step p t s (Event.setUrl (some u))
      = runEffect u { runCleanup s with url := some u } := by
    simp only [step, if_neg hcond, hsome, if_true]
  have hm1 : ({ runCleanup s with url := some u } : MState).modelRef = some n := by
    simp [runCleanup, hm]
  have hsc1 : ({ runCleanup s with url := some u } : MState).scene = s.scene.erase n := by
    simp [runCleanup, hm]
  have hpd1 : ({ runCleanup s with url := some u } : MState).pending = s.pending := by
    simp [runCleanup, hm]
  obtain ⟨h1, h2, q, h3⟩ := runEffect_core u { runCleanup s with url := some u } n hm1
  rw [hstep]
  refine ⟨h1, ?_, ?_⟩
  · rw [h2, hsc1]
    have hcount : ((s.scene.erase n).erase n).count n = 0 := by
      rw [List.count_erase_self, List.count_erase_self]
      omega
    exact List.count_eq_zero.mp hcount
  · intro pr hpr
    rw [h3, hpd1]
    exact List.mem_append_left _ hpr

/-- C3, witness for the amended theorem at a concrete superseded
session. -/
theorem C3_supersession_witness :
    ({ sess "urlA" with modelRef := some c3nodeA, scene := [c3nodeA] }.url
        = some "urlA") ∧
    ("urlB" ≠ "urlA") ∧
    ({ sess "urlA" with modelRef := some c3nodeA, scene := [c3nodeA] }.modelRef
        = some c3nodeA) ∧
    ({ sess "urlA" with modelRef := some c3nodeA, scene := [c3nodeA] }.scene.count
        c3nodeA ≤ 2) ∧
    ((step jsPI mtan0 { sess "urlA" with modelRef := some c3nodeA, scene := [c3nodeA] }
        (Event.setUrl (some "urlB"))).modelRef = none ∧
      c3nodeA ∉ (step jsPI mtan0
        { sess "urlA" with modelRef := some c3nodeA, scene := [c3nodeA] }
        (Event.setUrl (some "urlB"))).scene) :=
  ⟨by rfl, by decide, by rfl, by decide,
   (C3_supersession_cleanup jsPI mtan0 _ "urlA" "urlB" c3nodeA
      (by rfl) (by decide) (by rfl) (by decide)).1,
   (C3_supersession_cleanup jsPI mtan0 _ "urlA" "urlB" c3nodeA
      (by rfl) (by decide) (by rfl) (by decide)).2.1⟩

/-- C4, confirmed.  Whenever any pending load — at any cascade depth,
under any candidate, including the watchdog's recovery load — resolves
with a node containing zero renderable meshes, the session reports a
distinct empty-model failure for that handler: the status becomes the
empty-model error, the message is one of the four dedicated empty-model
strings, and the fallback cascade is not triggered (the fallback index,
the wasm path, the retry counter and the load log are unchanged, i.e.
no further load is issued); the node is not attached (scene and model
ref unchanged). -/
theorem C4_empty_geometry_failure (p : ℚ) (t : ℚ → ℚ) (s : MState)
    (id : ℕ) (req : LoadReq) (node : Obj)
    (hreq : s.pending.lookup id = some req)
    (hempty : node.hasGeometry = false) :
    (step p t s (Event.resolveOk id node)).status = Status.error (emptyMsg req) ∧
    emptyMsg req ∈
      ["Model loaded but contains no geometry.",
       "Model loaded but contains no geometry (retry).",
       "Model loaded but contains no geometry (retry chain).",
       "Timeout fallback: no geometry"] ∧
    (step p t s (Event.resolveOk id node)).fallbackIndex = s.fallbackIndex ∧
    (step p t s (Event.resolveOk id node)).wasmPath = s.wasmPath ∧
    (step p t s (Event.resolveOk id node)).retries = s.retries ∧
    (step p t s (Event.resolveOk id node)).loadLog = s.loadLog ∧
    (step p t s (Event.resolveOk id node)).scene = s.scene ∧
    (step p t s (Event.resolveOk id node)).modelRef = s.modelRef := by
  refine ⟨?_, ?_, ?_, ?_, ?_, ?_, ?_, ?_⟩ <;>
    first
    | (simp only [step, hreq, onLoadSuccess, hempty, if_true, emitError,
        removePending])
    | (unfold emptyMsg
       split
       all_goals try split
       all_goals try split
       all_goals decide)

/-- An empty parsed node used to instantiate the empty-geometry
theorem. -/
def emptyNode : Obj := ⟨[false, false], ⟨⟨0, 0, 0⟩, ⟨1, 1, 1⟩⟩⟩

/-- The initial load request a fresh session issues for url `u`. -/
def req0 (u : String) : LoadReq :=
  ⟨u, "https://unpkg.com/web-ifc@0.0.47/", 1, 0, false⟩

/-- C4, witness: the empty-geometry theorem applied to the initial load
of a concrete fresh session. -/
theorem C4_empty_geometry_witness :
    ((sess "c.ifc").pending.lookup 0 = some (req0 "c.ifc")) ∧
    emptyNode.hasGeometry = false ∧
    ((step jsPI mtan0 (sess "c.ifc") (Event.resolveOk 0 emptyNode)).status
        = Status.error (emptyMsg (req0 "c.ifc")) ∧
      (step jsPI mtan0 (sess "c.ifc") (Event.resolveOk 0 emptyNode)).loadLog
        = (sess "c.ifc").loadLog ∧
      (step jsPI mtan0 (sess "c.ifc") (Event.resolveOk 0 emptyNode)).scene
        = (sess "c.ifc").scene) :=
  ⟨by rfl, by rfl,
   (C4_empty_geometry_failure jsPI mtan0 (sess "c.ifc") 0 _ emptyNode
      (by rfl) (by rfl)).1,
   (C4_empty_geometry_failure jsPI mtan0 (sess "c.ifc") 0 _ emptyNode
      (by rfl) (by rfl)).2.2.2.2.2.1,
   (C4_empty_geometry_failure jsPI mtan0 (sess "c.ifc") 0 _ emptyNode
      (by rfl) (by rfl)).2.2.2.2.2.2.1⟩

/-- C7, confirmed.  On a fresh viewer, when the initial load (candidate
0) fails with a `LinkError`-class failure and the retry with candidate 1
then yields a node with renderable geometry, the session reaches
`Success` with candidate 1's node attached (it is the only node in the
scene, the model ref points to it), the camera has been framed around
its bounding box, `onRetry` was reported exactly once, the watchdog is
cleared — and candidate 2 is never attempted: exactly two loads were
issued, configured with candidates 0 and 1, and the manager's wasm path
was never advanced past candidate 1. -/
theorem C7_first_fallback_success (p : ℚ) (t : ℚ → ℚ) (u e0 : String)
    (node : Obj)
    (hlink : containsStr e0 "LinkError" = true)
    (hgeo : node.hasGeometry = true) :
    (run p t init [Event.setUrl (some u), Event.resolveErr 0 e0,
        Event.resolveOk 1 node]).status = Status.success ∧
    (run p t init [Event.setUrl (some u), Event.resolveErr 0 e0,
        Event.resolveOk 1 node]).modelRef = some node ∧
    (run p t init [Event.setUrl (some u), Event.resolveErr 0 e0,
        Event.resolveOk 1 node]).scene = [node] ∧
    (run p t init [Event.setUrl (some u), Event.resolveErr 0 e0,
        Event.resolveOk 1 node]).camera = frameCamera p t initCamera node.box ∧
    ((run p t init [Event.setUrl (some u), Event.resolveErr 0 e0,
        Event.resolveOk 1 node]).loadLog.map LoadReq.wasm)
      = ["https://unpkg.com/web-ifc@0.0.47/", "https://unpkg.com/web-ifc@0.0.53/"] ∧
    (run p t init [Event.setUrl (some u), Event.resolveErr 0 e0,
        Event.resolveOk 1 node]).wasmPath = "https://unpkg.com/web-ifc@0.0.53/" ∧
    (run p t init [Event.setUrl (some u), Event.resolveErr 0 e0,
        Event.resolveOk 1 node]).fallbackIndex = 1 ∧
    (run p t init [Event.setUrl (some u), Event.resolveErr 0 e0,
        Event.resolveOk 1 node]).retries = 1 ∧
    (run p t init [Event.setUrl (some u), Event.resolveErr 0 e0,
        Event.resolveOk 1 node]).watchdogArmed = false := by
  refine ⟨?_, ?_, ?_, ?_, ?_, ?_, ?_, ?_, ?_⟩ <;>
    simp [run, step, init, runEffect, runCleanup, issueLoad, removePending,
      onLoadError, onLoadSuccess, emitError, onProgressEvt, List.lookup,
      hlink, hgeo, fallbackList, initCamera]

/-- A node with one renderable mesh used to instantiate success
scenarios. -/
def meshNode : Obj := ⟨[false, true], ⟨⟨0, 0, 0⟩, ⟨8, 6, 4⟩⟩⟩

/-- C7, witness at a concrete session. -/
theorem C7_first_fallback_success_witness :
    containsStr "LinkError: wasm import mismatch" "LinkError" = true ∧
    meshNode.hasGeometry = true ∧
    ((run jsPI mtan0 init [Event.setUrl (some "d.ifc"),
        Event.resolveErr 0 "LinkError: wasm import mismatch",
        Event.resolveOk 1 meshNode]).status = Status.success ∧
     ((run jsPI mtan0 init [Event.setUrl (some "d.ifc"),
        Event.resolveErr 0 "LinkError: wasm import mismatch",
        Event.resolveOk 1 meshNode]).loadLog.map LoadReq.wasm)
      = ["https://unpkg.com/web-ifc@0.0.47/", "https://unpkg.com/web-ifc@0.0.53/"]) :=
  ⟨by decide, by rfl,
   (C7_first_fallback_success jsPI mtan0 "d.ifc" "LinkError: wasm import mismatch"
      meshNode (by decide) (by rfl)).1,
   (C7_first_fallback_success jsPI mtan0 "d.ifc" "LinkError: wasm import mismatch"
      meshNode (by decide) (by rfl)).2.2.2.2.1⟩

/-- A fresh session whose initial parse fails with a `LinkError`,
triggering the first fallback retry. -/
def c8trace : List Event :=
  [Event.setUrl (some "e.ifc"), Event.resolveErr 0 "LinkError: import object"]

/-- C8, counterexample.  After the initial parse fails with a
version-mismatch failure, the fallback retry is issued on the very same
loader handle that just failed: the load log shows two calls, both on
loader construction number 1, and only one `IFCLoader` was ever
constructed — contradicting the claim that every retry parse uses a
freshly initialized engine handle and that parse is never re-called on a
handle after a prior failure.  Only the manager's wasm path differs
between the two calls. -/
theorem C8_counterexample :
    ((run jsPI mtan0 init c8trace).loadLog.map LoadReq.loaderGen) = [1, 1] ∧
    (run jsPI mtan0 init c8trace).loaderGen = 1 ∧
    ((run jsPI mtan0 init c8trace).loadLog.map LoadReq.wasm)
      = ["https://unpkg.com/web-ifc@0.0.47/", "https://unpkg.com/web-ifc@0.0.53/"] := by
  exact ⟨by rfl, by rfl, by rfl⟩

/-- C8, amended.  Each cascade retry re-uses the single loader handle
constructed at session start: on a `LinkError` at depth 0 (first retry,
issuing the depth-1 load) as well as at depth 1 (second retry, issuing
the depth-2 retry-chain load), with an untried candidate remaining, the
machine re-points the existing manager at the next wasm candidate
(`setWasmPath`) and re-calls `load` on the same loader generation; no
new loader is ever constructed for a retry. -/
theorem C8_handle_reuse (p : ℚ) (t : ℚ → ℚ) (s : MState) (id : ℕ)
    (req : LoadReq) (e alt : String)
    (hreq : s.pending.lookup id = some req)
    (hw : req.viaWatchdog = false) (hd : req.depth = 0 ∨ req.depth = 1)
    (hlink : containsStr e "LinkError" = true)
    (halt : fallbackList.get? (s.fallbackIndex + 1) = some alt) :
    (step p t s (Event.resolveErr id e)).loaderGen = s.loaderGen ∧
    (step p t s (Event.resolveErr id e)).wasmPath = alt ∧
    (step p t s (Event.resolveErr id e)).fallbackIndex = s.fallbackIndex + 1 ∧
    (step p t s (Event.resolveErr id e)).loadLog
      = s.loadLog ++ [⟨req.url, alt, s.loaderGen, req.depth + 1, false⟩] := by
  have halt2 : fallbackList[s.fallbackIndex + 1]? = some alt := by
    simpa [List.get?_eq_getElem?] using halt
  rcases hd with hd | hd <;>
    refine ⟨?_, ?_, ?_, ?_⟩ <;>
      simp [step, hreq, onLoadError, hw, hd, hlink, halt2, issueLoad,
        removePending]

/-- The depth-1 retry request issued after the initial `LinkError` of
`c8trace`. -/
def req1 : LoadReq := ⟨"e.ifc", "https://unpkg.com/web-ifc@0.0.53/", 1, 1, false⟩

/-- The session state of `c8trace`, i.e. right after the first cascade
step: the depth-1 retry (request 1) is pending. -/
def c8sess2 : MState := run jsPI mtan0 init c8trace

/-- C8, witness for the amended theorem at a concrete session, at both
cascade depths: the first retry (depth 0 failure, depth-1 load) and the
second retry (depth 1 failure, depth-2 retry-chain load) each re-use
loader generation 1. -/
theorem C8_handle_reuse_witness :
    ((sess "e.ifc").pending.lookup 0 = some (req0 "e.ifc")) ∧
    (req0 "e.ifc").viaWatchdog = false ∧
    ((req0 "e.ifc").depth = 0 ∨ (req0 "e.ifc").depth = 1) ∧
    containsStr "LinkError: import object" "LinkError" = true ∧
    fallbackList.get? ((sess "e.ifc").fallbackIndex + 1)
      = some "https://unpkg.com/web-ifc@0.0.53/" ∧
    ((step jsPI mtan0 (sess "e.ifc")
        (Event.resolveErr 0 "LinkError: import object")).loaderGen
      = (sess "e.ifc").loaderGen ∧
     (step jsPI mtan0 (sess "e.ifc")
        (Event.resolveErr 0 "LinkError: import object")).wasmPath
      = "https://unpkg.com/web-ifc@0.0.53/") ∧
    (c8sess2.pending.lookup 1 = some req1) ∧
    ((step jsPI mtan0 c8sess2
        (Event.resolveErr 1 "LinkError: import object")).loaderGen
      = c8sess2.loaderGen ∧
     (step jsPI mtan0 c8sess2
        (Event.resolveErr 1 "LinkError: import object")).loadLog
      = c8sess2.loadLog
        ++ [⟨req1.url, "https://unpkg.com/web-ifc@0.0.36/", c8sess2.loaderGen,
             req1.depth + 1, false⟩]) :=
  ⟨by rfl, by rfl, Or.inl (by rfl), by decide, by rfl,
   ⟨(C8_handle_reuse jsPI mtan0 (sess "e.ifc") 0 (req0 "e.ifc")
      "LinkError: import object" "https://unpkg.com/web-ifc@0.0.53/"
      (by rfl) (by rfl) (Or.inl (by rfl)) (by decide) (by rfl)).1,
    (C8_handle_reuse jsPI mtan0 (sess "e.ifc") 0 (req0 "e.ifc")
      "LinkError: import object" "https://unpkg.com/web-ifc@0.0.53/"
      (by rfl) (by rfl) (Or.inl (by rfl)) (by decide) (by rfl)).2.1⟩,
   by rfl,
   ⟨(C8_handle_reuse jsPI mtan0 c8sess2 1 req1
      "LinkError: import object" "https://unpkg.com/web-ifc@0.0.36/"
      (by rfl) (by rfl) (Or.inr (by rfl)) (by decide) (by rfl)).1,
    (C8_handle_reuse jsPI mtan0 c8sess2 1 req1
      "LinkError: import object" "https://unpkg.com/web-ifc@0.0.36/"
      (by rfl) (by rfl) (Or.inr (by rfl)) (by decide) (by rfl)).2.2.2⟩⟩

theorem runCleanup_camera (s : MState) : (runCleanup s).camera = s.camera := by
  unfold runCleanup
  cases s.modelRef <;> rfl

theorem runCleanup_errorLog (s : MState) : (runCleanup s).errorLog = s.errorLog := by
  unfold runCleanup
  cases s.modelRef <;> rfl

theorem runEffect_camera (u : String) (s : MState) :
    (runEffect u s).camera = s.camera := by
  unfold runEffect issueLoad
  by_cases hlg : s.loaderGen = 0 <;> cases hm : s.modelRef <;> simp [hlg, hm]

theorem runEffect_errorLog (u : String) (s : MState) :
    (runEffect u s).errorLog = s.errorLog := by
  unfold runEffect issueLoad
  by_cases hlg : s.loaderGen = 0 <;> cases hm : s.modelRef <;> simp [hlg, hm]

theorem step_setUrl_camera (p : ℚ) (t : ℚ → ℚ) (s : MState) (u : Option String) :
    (step p t s (Event.setUrl u)).camera = s.camera := by
  simp only [step]
  split
  · rfl
  · cases u with
    | some v =>
        by_cases hs : s.url.isSome <;>
          simp [hs, runEffect_camera, runCleanup_camera]
    | none =>
        by_cases hs : s.url.isSome <;> simp [hs, runCleanup_camera]

theorem step_setUrl_errorLog (p : ℚ) (t : ℚ → ℚ) (s : MState) (u : Option String) :
    (step p t s (Event.setUrl u)).errorLog = s.errorLog := by
  simp only [step]
  split
  · rfl
  · cases u with
    | some v =>
        by_cases hs : s.url.isSome <;>
          simp [hs, runEffect_errorLog, runCleanup_errorLog]
    | none =>
        by_cases hs : s.url.isSome <;> simp [hs, runCleanup_errorLog]

/-- Both C10 conjuncts hold for a transition that emits no error and
leaves the camera alone. -/
theorem c10_of_no_error_no_camera {s0 s1 : MState}
    (he : s1.errorLog = s0.errorLog) (hc : s1.camera = s0.camera) :
    (s1.errorLog ≠ s0.errorLog → s1.scene = s0.scene ∧ s1.camera = s0.camera) ∧
    (s1.camera ≠ s0.camera →
      ∃ n, s1.modelRef = some n ∧ n.hasGeometry = true ∧ n ∈ s1.scene) :=
  ⟨fun h => absurd he h, fun h => absurd hc h⟩

/-- Both C10 conjuncts hold for a failure transition that leaves scene
and camera alone. -/
theorem c10_of_failure_pure {s0 s1 : MState}
    (hc : s1.camera = s0.camera) (hsc : s1.scene = s0.scene) :
    (s1.errorLog ≠ s0.errorLog → s1.scene = s0.scene ∧ s1.camera = s0.camera) ∧
    (s1.camera ≠ s0.camera →
      ∃ n, s1.modelRef = some n ∧ n.hasGeometry = true ∧ n ∈ s1.scene) :=
  ⟨fun _ => ⟨hsc, hc⟩, fun h => absurd hc h⟩

/-- C10, confirmed.  On every failure path of a load attempt — a parse
or fetch error at any cascade depth, the watchdog recovery failing, or
an empty-geometry rejection — the scene graph and the camera are left
exactly as they were: any transition that emits an `onError` keeps scene
and camera unchanged.  Moreover the camera transform is modified only
after a validated node has been attached: any transition that changes
the camera leaves the model ref pointing at a node that passed the
geometry validation and is attached to the scene. -/
theorem C10_failure_leaves_scene_and_camera (p : ℚ) (t : ℚ → ℚ)
    (s : MState) (e : Event) :
    ((step p t s e).errorLog ≠ s.errorLog →
      (step p t s e).scene = s.scene ∧ (step p t s e).camera = s.camera) ∧
    ((step p t s e).camera ≠ s.camera →
      ∃ n, (step p t s e).modelRef = some n ∧ n.hasGeometry = true ∧
        n ∈ (step p t s e).scene) := by
  cases e with
  | setUrl u =>
      exact c10_of_no_error_no_camera (step_setUrl_errorLog p t s u)
        (step_setUrl_camera p t s u)
  | resolveOk id node =>
      simp only [step]
      cases hlk : s.pending.lookup id with
      | none => exact c10_of_no_error_no_camera rfl rfl
      | some req =>
          simp only [onLoadSuccess]
          by_cases hg : node.hasGeometry = false
          · rw [if_pos hg]
            exact c10_of_failure_pure rfl rfl
          · rw [if_neg hg]
            have hg2 : node.hasGeometry = true := by
              revert hg
              cases node.hasGeometry <;> simp
            by_cases hv : req.viaWatchdog = true
            · rw [if_pos hv]
              refine ⟨fun h => absurd rfl h, fun _ => ⟨node, rfl, hg2, ?_⟩⟩
              exact List.mem_append_right _ (List.mem_singleton_self node)
            · rw [if_neg hv]
              refine ⟨fun h => absurd rfl h, fun _ => ⟨node, rfl, hg2, ?_⟩⟩
              exact List.mem_append_right _ (List.mem_singleton_self node)
  | resolveErr id emsg =>
      simp only [step]
      cases hlk : s.pending.lookup id with
      | none => exact c10_of_no_error_no_camera rfl rfl
      | some req =>
          simp only [onLoadError]
          by_cases hv : req.viaWatchdog = true
          · rw [if_pos hv]
            exact c10_of_failure_pure rfl rfl
          · rw [if_neg hv]
            by_cases hd0 : req.depth = 0
            · rw [if_pos hd0]
              by_cases hle : containsStr emsg "LinkError" = true
              · rw [if_pos hle]
                cases halt : fallbackList.get? ((removePending id s).fallbackIndex + 1) with
                | none => exact c10_of_failure_pure rfl rfl
                | some alt => exact c10_of_no_error_no_camera rfl rfl
              · rw [if_neg hle]
                exact c10_of_failure_pure rfl rfl
            · rw [if_neg hd0]
              by_cases hd1 : req.depth = 1
              · rw [if_pos hd1]
                by_cases hle : containsStr emsg "LinkError" = true
                · rw [if_pos hle]
                  cases halt : fallbackList.get? ((removePending id s).fallbackIndex + 1) with
                  | none => exact c10_of_failure_pure rfl rfl
                  | some alt => exact c10_of_no_error_no_camera rfl rfl
                · rw [if_neg hle]
                  exact c10_of_failure_pure rfl rfl
              · rw [if_neg hd1]
                exact c10_of_failure_pure rfl rfl
  | progressEvt id loaded total =>
      simp only [step]
      cases hlk : s.pending.lookup id with
      | none => exact c10_of_no_error_no_camera rfl rfl
      | some req =>
          simp only [onProgressEvt]
          split
          · exact c10_of_no_error_no_camera rfl rfl
          · exact c10_of_no_error_no_camera rfl rfl
  | watchdogFire =>
      simp only [step]
      by_cases harm : s.watchdogArmed = true
      · rw [if_pos harm]
        cases hu : s.url with
        | none => exact c10_of_no_error_no_camera rfl rfl
        | some u =>
            simp only [hu]
            by_cases hg : s.loaderGen ≠ 0
            · rw [if_pos hg]
              exact c10_of_no_error_no_camera rfl rfl
            · rw [if_neg hg]
              exact c10_of_no_error_no_camera rfl rfl
      · rw [if_neg harm]
        exact c10_of_no_error_no_camera rfl rfl

/-- C10, witness: at a concrete failing step the error log grew while
scene and camera are unchanged, and at a concrete succeeding step the
camera changed with a validated node attached. -/
theorem C10_witness :
    ((step jsPI mtan0 (sess "f.ifc") (Event.resolveErr 0 "boom")).errorLog
        ≠ (sess "f.ifc").errorLog) ∧
    ((step jsPI mtan0 (sess "f.ifc") (Event.resolveErr 0 "boom")).scene
        = (sess "f.ifc").scene ∧
     (step jsPI mtan0 (sess "f.ifc") (Event.resolveErr 0 "boom")).camera
        = (sess "f.ifc").camera) ∧
    ((step jsPI mtan0 (sess "f.ifc") (Event.resolveOk 0 meshNode)).camera
        ≠ (sess "f.ifc").camera) ∧
    (∃ n, (step jsPI mtan0 (sess "f.ifc") (Event.resolveOk 0 meshNode)).modelRef
        = some n ∧ n.hasGeometry = true ∧
        n ∈ (step jsPI mtan0 (sess "f.ifc") (Event.resolveOk 0 meshNode)).scene) :=
  by
  have hcam : (step jsPI mtan0 (sess "f.ifc") (Event.resolveOk 0 meshNode)).camera
      ≠ (sess "f.ifc").camera := by
    intro h
    exact absurd (congrArg Camera.projectionUpdates h) (by decide)
  exact ⟨by decide,
    (C10_failure_leaves_scene_and_camera jsPI mtan0 (sess "f.ifc")
       (Event.resolveErr 0 "boom")).1 (by decide),
    hcam,
    (C10_failure_leaves_scene_and_camera jsPI mtan0 (sess "f.ifc")
       (Event.resolveOk 0 meshNode)).2 hcam⟩

/-- A session whose fetch completes (the final progress event carries
`loaded = total`, so 100 is reported) and whose parse then fails. -/
def c6trace : List Event :=
  [Event.setUrl (some "g.ifc"),
   Event.progressEvt 0 50 50,
   Event.resolveErr 0 "corrupt data"]

/-- C6, counterexample.  The progress callback of `Viewer3D.jsx` emits
`round(100 * loaded / total)` for every progress event: when the server
understates the total (`loaded = 3`, `total = 2`, as happens with
compressed transfers) it reports `150`, outside the claimed `0..100`
range; when the total is unknown (`lengthComputable = false`,
`total = 0`) it still emits a computed value instead of staying
indeterminate; and a reported sequence can end at 100 without the
attempt succeeding — in `c6trace` the fetch completes (progress 100 is
reported) and the parse then fails, so the attempt's progress log ends
at 100 while the session terminates in `Failed`. -/
theorem C6_counterexample :
    progressViewer3D true 3 2 = some 150 ∧
    ¬((150 : ℤ) ≤ 100) ∧
    (progressViewer3D false 3 0).isSome = true ∧
    (run jsPI mtan0 init c6trace).progressLog = [100] ∧
    (run jsPI mtan0 init c6trace).status
      = Status.error "Failed to fetch or parse IFC file: corrupt data" := by
  refine ⟨?_, by norm_num, by rfl, ?_, by rfl⟩
  · show some (jsRound (3 / 2 * 100)) = some 150
    norm_num [jsRound]
  · have h1 : (run jsPI mtan0 init c6trace).progressLog
        = [jsRound (50 / 50 * 100)] := by rfl
    rw [h1]
    norm_num [jsRound]

/-- C6, amended.  The guarded progress callback of `part_001` emits
`floor(100 * loaded / total)` only when the length is computable, and
nothing otherwise; under the XHR invariants (`0 ≤ loaded ≤ total`,
`0 < total`) every emitted value is an integer between 0 and 100 and is
non-decreasing as `loaded` grows within an attempt.  The unguarded
callback of `Viewer3D.jsx` has neither property, and a reported
sequence ending at 100 does not imply `Success` — the fetch can
complete, reporting 100, and the parse still fail (see the
counterexample). -/
theorem C6_progress_guarded (loaded loaded2 total : ℚ)
    (h0 : 0 ≤ loaded) (h12 : loaded ≤ loaded2) (h2t : loaded2 ≤ total)
    (hpos : 0 < total) :
    progressPart001 true loaded total = some ⌊loaded / total * 100⌋ ∧
    0 ≤ ⌊loaded / total * 100⌋ ∧
    ⌊loaded / total * 100⌋ ≤ 100 ∧
    ⌊loaded / total * 100⌋ ≤ ⌊loaded2 / total * 100⌋ ∧
    progressPart001 false loaded total = none := by
  refine ⟨by simp [progressPart001], ?_, ?_, ?_, by simp [progressPart001]⟩
  · have hx : 0 ≤ loaded / total * 100 := by positivity
    exact Int.floor_nonneg.mpr hx
  · have h1 : loaded / total ≤ 1 := by
      rw [div_le_one hpos]
      linarith
    have hx : loaded / total * 100 ≤ 100 := by nlinarith
    calc ⌊loaded / total * 100⌋ ≤ ⌊(100 : ℚ)⌋ := Int.floor_le_floor hx
      _ = 100 := by norm_num
  · apply Int.floor_le_floor
    have hdiv : loaded / total ≤ loaded2 / total :=
      (div_le_div_iff_of_pos_right hpos).mpr h12
    nlinarith

/-- C6, witness for the amended theorem at a concrete transfer. -/
theorem C6_progress_witness :
    ((0 : ℚ) ≤ 1 ∧ (1 : ℚ) ≤ 2 ∧ (2 : ℚ) ≤ 4 ∧ (0 : ℚ) < 4) ∧
    (progressPart001 true 1 4 = some ⌊(1 : ℚ) / 4 * 100⌋ ∧
     ⌊(1 : ℚ) / 4 * 100⌋ ≤ 100 ∧
     ⌊(1 : ℚ) / 4 * 100⌋ ≤ ⌊(2 : ℚ) / 4 * 100⌋ ∧
     progressPart001 false 1 4 = none) :=
  ⟨⟨by norm_num, by norm_num, by norm_num, by norm_num⟩,
   (C6_progress_guarded 1 2 4 (by norm_num) (by norm_num) (by norm_num)
      (by norm_num)).1,
   (C6_progress_guarded 1 2 4 (by norm_num) (by norm_num) (by norm_num)
      (by norm_num)).2.2.1,
   (C6_progress_guarded 1 2 4 (by norm_num) (by norm_num) (by norm_num)
      (by norm_num)).2.2.2.1,
   (C6_progress_guarded 1 2 4 (by norm_num) (by norm_num) (by norm_num)
      (by norm_num)).2.2.2.2⟩

/-- C5, counterexample.  At the bounding volume `(0,0,0)..(10,10,10)`
the framer of `Viewer3D.jsx` does not compute a stand-off of 30, and its
result is not independent of the other camera parameters: with field of
view `22.5` the angle passed to `Math.tan` is `pi/4`, so the distance is
`|10/4 * 1| * 3 = 7.5`, not 30 (the camera does look at the center
`(5,5,5)` and sits at `center + (d, d, d)`). -/
theorem C5_counterexample :
    cameraZViewer3D (45 / 2) 10 = 15 / 2 ∧
    ((15 : ℝ) / 2 ≠ 30) ∧
    (frameViewer3D (45 / 2) ⟨0, 0, 0⟩ ⟨10, 10, 10⟩).distance = 15 / 2 ∧
    (frameViewer3D (45 / 2) ⟨0, 0, 0⟩ ⟨10, 10, 10⟩).target.x = 5 ∧
    (frameViewer3D (45 / 2) ⟨0, 0, 0⟩ ⟨10, 10, 10⟩).target.y = 5 ∧
    (frameViewer3D (45 / 2) ⟨0, 0, 0⟩ ⟨10, 10, 10⟩).target.z = 5 ∧
    (frameViewer3D (45 / 2) ⟨0, 0, 0⟩ ⟨10, 10, 10⟩).position.x = 5 + 15 / 2 := by
  have htan : Real.tan ((45 / 2 : ℝ) * (Real.pi / 180) * 2) = 1 := by
    have harg : (45 / 2 : ℝ) * (Real.pi / 180) * 2 = Real.pi / 4 := by ring
    rw [harg, Real.tan_pi_div_four]
  have hz : cameraZViewer3D (45 / 2) 10 = 15 / 2 := by
    rw [cameraZViewer3D, htan, mul_one]
    rw [abs_of_nonneg (by norm_num : (0 : ℝ) ≤ 10 / 4)]
    norm_num
  have hmax : max ((10 : ℝ) - 0) (max ((10 : ℝ) - 0) ((10 : ℝ) - 0)) = 10 := by
    norm_num
  refine ⟨hz, by norm_num, ?_, ?_, ?_, ?_, ?_⟩ <;>
    simp only [frameViewer3D, hmax, hz] <;> norm_num

/-- C5, amended.  The framers of `part_001` and `part_002` (stand-off
`maxDim * 3` with degenerate-volume defaults) do compute exactly 30 for
the volume `(0,0,0)..(10,10,10)`: the camera is placed at `(35,35,35)`
and looks at the center `(5,5,5)`, deterministically (both are pure
functions of the bounding volume alone); the `Viewer3D.jsx` framer
instead computes `|maxDim/4 * tan(2*fov)| * 3`, which depends on the
camera field of view and differs from 30 (see the counterexample). -/
theorem C5_part001_framing :
    framePart001 ⟨0, 0, 0⟩ ⟨10, 10, 10⟩
      = ⟨30, ⟨35, 35, 35⟩, ⟨5, 5, 5⟩⟩ ∧
    framePart002 ⟨0, 0, 0⟩ ⟨10, 10, 10⟩
      = ⟨30, ⟨35, 35, 35⟩, ⟨5, 5, 5⟩⟩ := by
  constructor <;>
    · simp only [framePart001, framePart002, Framed.mk.injEq, Vec3.mk.injEq]
      norm_num

/-- C9, counterexample.  The framer of `Viewer3D.jsx` has no guard for a
degenerate bounding volume: at `min = max = (1,2,3)` the maximal
dimension is 0, the stand-off distance is `|0/4 * tan(..)| * 3 = 0`, and
the camera is placed exactly at the center it is told to look at —
contradicting the claim that a fixed default extent is substituted and
the camera never sits at the volume's center. -/
theorem C9_counterexample :
    (frameViewer3D 50 ⟨1, 2, 3⟩ ⟨1, 2, 3⟩).distance = 0 ∧
    (frameViewer3D 50 ⟨1, 2, 3⟩ ⟨1, 2, 3⟩).position.x
      = (frameViewer3D 50 ⟨1, 2, 3⟩ ⟨1, 2, 3⟩).target.x ∧
    (frameViewer3D 50 ⟨1, 2, 3⟩ ⟨1, 2, 3⟩).position.y
      = (frameViewer3D 50 ⟨1, 2, 3⟩ ⟨1, 2, 3⟩).target.y ∧
    (frameViewer3D 50 ⟨1, 2, 3⟩ ⟨1, 2, 3⟩).position.z
      = (frameViewer3D 50 ⟨1, 2, 3⟩ ⟨1, 2, 3⟩).target.z ∧
    (frameViewer3D 50 ⟨1, 2, 3⟩ ⟨1, 2, 3⟩).target.x = 1 ∧
    (frameViewer3D 50 ⟨1, 2, 3⟩ ⟨1, 2, 3⟩).target.y = 2 ∧
    (frameViewer3D 50 ⟨1, 2, 3⟩ ⟨1, 2, 3⟩).target.z = 3 := by
  have hz : cameraZViewer3D 50 (max ((1 : ℝ) - 1) (max ((2 : ℝ) - 2) ((3 : ℝ) - 3)))
      = 0 := by
    rw [cameraZViewer3D]
    norm_num
  refine ⟨?_, ?_, ?_, ?_, ?_, ?_, ?_⟩ <;>
    simp only [frameViewer3D, hz] <;> norm_num

/-- C9, amended.  The framers of `part_001` and `part_002` do guard
against a degenerate volume: for `min = max`, `part_002` substitutes the
default extent 10 (stand-off `30`), `part_001` substitutes the default
stand-off `60`; in both the distance is strictly positive and the camera
is never placed at the volume's center.  The `Viewer3D.jsx` framer has
no such guard (see the counterexample). -/
theorem C9_degenerate_default (bmin bmax : Vec3) (h : bmax = bmin) :
    (framePart001 bmin bmax).distance = 60 ∧
    0 < (framePart001 bmin bmax).distance ∧
    (framePart001 bmin bmax).position ≠ (framePart001 bmin bmax).target ∧
    (framePart002 bmin bmax).distance = 30 ∧
    0 < (framePart002 bmin bmax).distance ∧
    (framePart002 bmin bmax).position ≠ (framePart002 bmin bmax).target := by
  subst h
  refine ⟨?_, ?_, ?_, ?_, ?_, ?_⟩ <;>
    simp [framePart001, framePart002, Vec3.mk.injEq]
  norm_num

/-- C9, witness for the amended theorem at a concrete degenerate
volume. -/
theorem C9_degenerate_witness :
    ((⟨1, 2, 3⟩ : Vec3) = ⟨1, 2, 3⟩) ∧
    ((framePart001 ⟨1, 2, 3⟩ ⟨1, 2, 3⟩).distance = 60 ∧
     (framePart002 ⟨1, 2, 3⟩ ⟨1, 2, 3⟩).distance = 30) :=
  ⟨rfl,
   (C9_degenerate_default ⟨1, 2, 3⟩ ⟨1, 2, 3⟩ rfl).1,
   (C9_degenerate_default ⟨1, 2, 3⟩ ⟨1, 2, 3⟩ rfl).2.2.2.1⟩

end Mcc
